import Mathlib

/-!
# e_banking — Account Ledger & Payment-Code Engine, shallow embedding

Shallow embedding of the server-side money-movement routes of the
`kavi650/e_banking` repository (`server/routes.ts`, `server/storage.ts`,
`server/fraud-detection.ts`, `shared/schema.ts`) and proofs of the spec's
claims about them.

Modelling conventions:
* Monetary values are exact rationals (`ℚ`).  The JavaScript
  `parseFloat`/`.toFixed(2)` round-trip on 2-decimal strings is modelled by
  `toFixed2`, which rounds to the nearest multiple of `1/100` with ties
  rounded up — the rounding rule of `Number.prototype.toFixed` — ignoring
  IEEE-754 representation error.
* The bcrypt PIN comparison is an external boolean oracle: each request
  carries `pinOk`, standing for `bcrypt.compare(req.pin, user.pin)`.
* The database tables (`users`, `transactions`, `qr_payments`,
  `fraud_alerts`) are lists; `WHERE id = x` lookups are `List.find?`,
  `UPDATE ... WHERE id = x` is a `List.map` touching the matching rows,
  `INSERT` is an append.  Primary-key uniqueness, where a proof needs it,
  is an explicit `Nodup` hypothesis on the mapped-out ids.
* JavaScript truthiness in `a || b` expressions is modelled by the
  `jsOr...` helpers (`0`, `null`/`undefined` and `""` are falsy).
-/

namespace EBank

set_option allowUnsafeReducibility true
attribute [semireducible] Rat.add Rat.sub Rat.mul Rat.div Rat.neg Rat.inv Rat.floor
set_option maxRecDepth 8000

/-- A row of the `users` table (the fields the core routes read). -/
structure User where
  id : Nat
  accountNumber : String
  fullName : String
  balance : ℚ
  walletBalance : ℚ
  isActive : Bool
  deriving DecidableEq, Repr

/-- A row of the `transactions` table (the fields the routes write). -/
structure Txn where
  fromUserId : Option Nat
  toUserId : Option Nat
  fromAccountNumber : Option String
  toAccountNumber : Option String
  amount : ℚ
  transactionType : String
  description : String
  status : String
  deriving DecidableEq, Repr

/-- A row of the `qr_payments` table.  `expiresAt` is a millisecond
timestamp (`ℤ`). -/
structure QrPayment where
  id : Nat
  userId : Nat
  qrCode : String
  amount : Option ℚ
  merchantName : Option String
  isUsed : Bool
  expiresAt : ℤ
  deriving DecidableEq, Repr

/-- A row of the `fraud_alerts` table. -/
structure FraudAlert where
  userId : Nat
  alertType : String
  riskScore : ℚ
  description : String
  status : String
  deriving DecidableEq, Repr

/-- The database state the money-movement routes touch. -/
structure BankState where
  users : List User
  txns : List Txn
  qrPayments : List QrPayment
  fraudAlerts : List FraudAlert
  deriving DecidableEq, Repr

/-- Model of `Number.prototype.toFixed(2)` followed by `parseFloat`, over
`ℚ`: round to the nearest cent, ties toward `+∞` (`round` in Mathlib is
`⌊x + 1/2⌋`, matching `toFixed`'s "pick the larger n" tie rule). -/
def toFixed2 (q : ℚ) : ℚ := (round (q * 100) : ℤ) / 100

/-- JavaScript `a || d` on an optional number (`0`, `null`, `undefined`
are falsy). -/
def jsOrQ (o : Option ℚ) (d : ℚ) : ℚ :=
  match o with
  | none => d
  | some a => if a = 0 then d else a

/-- JavaScript `s || d` on an optional string (`""`, `null`, `undefined`
are falsy). -/
def jsOrStr (o : Option String) (d : String) : String :=
  match o with
  | none => d
  | some s => if s = "" then d else s

/-- JavaScript `!s` on an optional string: true for `null`/`undefined`/`""`. -/
def jsStrFalsy (o : Option String) : Bool :=
  match o with
  | none => true
  | some s => s == ""

/-! ## Storage layer (`server/storage.ts`) -/

/-- Storage `getUser`: `SELECT * FROM users WHERE id = uid` (first row). -/
def getUser (us : List User) (uid : Nat) : Option User :=
  us.find? (fun u => u.id == uid)

/-- Storage `getUserByAccountNumber`. -/
def getUserByAccountNumber (us : List User) (acc : String) : Option User :=
  us.find? (fun u => u.accountNumber == acc)

/-- Storage `updateUserBalance`: `UPDATE users SET balance = b WHERE id = uid`. -/
def updateUserBalance (us : List User) (uid : Nat) (b : ℚ) : List User :=
  us.map (fun u => if u.id == uid then { u with balance := b } else u)

/-- Storage `updateUserWalletBalance`. -/
def updateUserWalletBalance (us : List User) (uid : Nat) (w : ℚ) : List User :=
  us.map (fun u => if u.id == uid then { u with walletBalance := w } else u)

/-- Storage `getQrPaymentByCode`: the row with this code that is unused and not
yet expired (`isUsed = false AND expiresAt >= now`); `none` otherwise.
Absent, already-used and expired codes are indistinguishable to the
caller. -/
def getQrPaymentByCode (qs : List QrPayment) (code : String) (now : ℤ) :
    Option QrPayment :=
  qs.find? (fun p => p.qrCode == code && p.isUsed == false && decide (now ≤ p.expiresAt))

/-- Storage `markQrPaymentAsUsed`: `UPDATE qr_payments SET is_used = true WHERE id`. -/
def markQrPaymentAsUsed (qs : List QrPayment) (qid : Nat) : List QrPayment :=
  qs.map (fun p => if p.id == qid then { p with isUsed := true } else p)

/-! ## Request / response types for the routes -/

/-- The typed error responses of the four money-moving routes. -/
inductive ApiError where
  /-- Status 401 from the `authenticate` middleware. -/
  | authFailed
  /-- Status 400, zod `transactionSchema` rejection. -/
  | invalidInput
  /-- Status 401 `Invalid PIN`. -/
  | invalidPin
  /-- Status 400 `Destination account number is required`. -/
  | destinationRequired
  /-- Status 404 `Destination account not found`. -/
  | destinationNotFound
  /-- Status 400 `Cannot transfer to same account`. -/
  | sameAccount
  /-- Status 400 `Insufficient balance`. -/
  | insufficientBalance
  /-- Status 400 `QR code is required`. -/
  | qrCodeRequired
  /-- Status 404 `Invalid or expired QR code`. -/
  | invalidOrExpiredQr
  /-- Status 400 `Invalid payment amount`. -/
  | invalidPaymentAmount
  /-- Status 400 `Insufficient wallet balance`. -/
  | insufficientWalletBalance
  deriving DecidableEq, Repr

/-- A route outcome: an error response or a success payload. -/
inductive Resp (α : Type) where
  | err (e : ApiError)
  | ok (v : α)
  deriving DecidableEq, Repr

/-- Validation by `transactionSchema` (`shared/schema.ts`): positive amount, PIN string
of length 4–6. -/
def validTxnReq (amount : ℚ) (pin : String) : Prop :=
  0 < amount ∧ 4 ≤ pin.length ∧ pin.length ≤ 6

instance (amount : ℚ) (pin : String) : Decidable (validTxnReq amount pin) := by
  unfold validTxnReq; infer_instance

structure DepositReq where
  userId : Nat
  amount : ℚ
  pin : String
  pinOk : Bool
  deriving DecidableEq, Repr

structure DepositOk where
  newBalance : ℚ
  amount : ℚ
  deriving DecidableEq, Repr

structure WithdrawReq where
  userId : Nat
  amount : ℚ
  pin : String
  pinOk : Bool
  deriving DecidableEq, Repr

structure WithdrawOk where
  newBalance : ℚ
  newWalletBalance : ℚ
  amount : ℚ
  deriving DecidableEq, Repr

structure TransferReq where
  userId : Nat
  amount : ℚ
  pin : String
  pinOk : Bool
  toAccountNumber : Option String
  deriving DecidableEq, Repr

structure TransferOk where
  newBalance : ℚ
  amount : ℚ
  recipient : String
  deriving DecidableEq, Repr

structure QrScanReq where
  userId : Nat
  qrCode : Option String
  amount : Option ℚ
  /-- Value of `new Date()` at the time of the lookup, ms. -/
  now : ℤ
  deriving DecidableEq, Repr

structure QrScanOk where
  amount : ℚ
  merchant : Option String
  newWalletBalance : ℚ
  deriving DecidableEq, Repr

/-! ## Routes (`server/routes.ts`) -/

/-- The `transactions` row inserted by a successful deposit. -/
def depositTxn (u : User) (a : ℚ) : Txn :=
  { fromUserId := none, toUserId := some u.id
    fromAccountNumber := none, toAccountNumber := some u.accountNumber
    amount := a, transactionType := "deposit"
    description := "Cash deposit", status := "completed" }

/-- The `transactions` row inserted by a successful withdrawal to wallet. -/
def withdrawTxn (u : User) (a : ℚ) : Txn :=
  { fromUserId := some u.id, toUserId := none
    fromAccountNumber := some u.accountNumber, toAccountNumber := none
    amount := a, transactionType := "withdrawal-to-wallet"
    description := "Withdrawal to wallet", status := "completed" }

/-- The `transactions` row inserted by a successful transfer. -/
def transferTxn (u toUser : User) (a : ℚ) : Txn :=
  { fromUserId := some u.id, toUserId := some toUser.id
    fromAccountNumber := some u.accountNumber
    toAccountNumber := some toUser.accountNumber
    amount := a, transactionType := "transfer"
    description := "Transfer to " ++ toUser.fullName, status := "completed" }

/-- The `transactions` row inserted by a successful QR wallet payment.
Its destination is the merchant label string; no `toUserId` is set. -/
def walletPaymentTxn (u : User) (qp : QrPayment) (a : ℚ) : Txn :=
  { fromUserId := some u.id, toUserId := none
    fromAccountNumber := some u.accountNumber
    toAccountNumber := some (jsOrStr qp.merchantName "QR Merchant")
    amount := a, transactionType := "wallet-payment"
    description := "QR Payment to " ++ jsOrStr qp.merchantName "Merchant"
    status := "completed" }

/-- Route `POST /api/transactions/deposit`. -/
def depositRoute (s : BankState) (r : DepositReq) : Resp DepositOk × BankState :=
  match getUser s.users r.userId with
  | none => (.err .authFailed, s)
  | some u =>
    if u.isActive = false then (.err .authFailed, s) else
    if validTxnReq r.amount r.pin then
    if r.pinOk = false then (.err .invalidPin, s) else
    let newBalance := toFixed2 (u.balance + r.amount)
    (.ok ⟨newBalance, r.amount⟩,
     { s with txns := s.txns ++ [depositTxn u r.amount]
              users := updateUserBalance s.users u.id newBalance })
    else (.err .invalidInput, s)

/-- Route `POST /api/transactions/withdraw` (withdraw to wallet). -/
def withdrawRoute (s : BankState) (r : WithdrawReq) : Resp WithdrawOk × BankState :=
  match getUser s.users r.userId with
  | none => (.err .authFailed, s)
  | some u =>
    if u.isActive = false then (.err .authFailed, s) else
    if validTxnReq r.amount r.pin then
    if r.pinOk = false then (.err .invalidPin, s) else
    if u.balance < r.amount then (.err .insufficientBalance, s) else
    let newBalance := toFixed2 (u.balance - r.amount)
    let newWalletBalance := toFixed2 (u.walletBalance + r.amount)
    (.ok ⟨newBalance, newWalletBalance, r.amount⟩,
     { s with txns := s.txns ++ [withdrawTxn u r.amount]
              users := updateUserWalletBalance
                (updateUserBalance s.users u.id newBalance)
                u.id newWalletBalance })
    else (.err .invalidInput, s)

/-- Route `POST /api/transactions/transfer`. -/
def transferRoute (s : BankState) (r : TransferReq) : Resp TransferOk × BankState :=
  match getUser s.users r.userId with
  | none => (.err .authFailed, s)
  | some u =>
    if u.isActive = false then (.err .authFailed, s) else
    if validTxnReq r.amount r.pin then
    if jsStrFalsy r.toAccountNumber = true then (.err .destinationRequired, s) else
    if r.pinOk = false then (.err .invalidPin, s) else
    match getUserByAccountNumber s.users (r.toAccountNumber.getD "") with
    | none => (.err .destinationNotFound, s)
    | some toUser =>
      if toUser.isActive = false then (.err .destinationNotFound, s) else
      if toUser.id = u.id then (.err .sameAccount, s) else
      if u.balance < r.amount then (.err .insufficientBalance, s) else
      let fromNewBalance := toFixed2 (u.balance - r.amount)
      let toNewBalance := toFixed2 (toUser.balance + r.amount)
      (.ok ⟨fromNewBalance, r.amount, toUser.fullName⟩,
       { s with txns := s.txns ++ [transferTxn u toUser r.amount]
                users := updateUserBalance
                  (updateUserBalance s.users u.id fromNewBalance)
                  toUser.id toNewBalance })
    else (.err .invalidInput, s)

/-- The effective payment amount of a QR scan:
`amount || parseFloat(qrPayment.amount || '0')`. -/
def resolvedAmount (override : Option ℚ) (codeAmount : Option ℚ) : ℚ :=
  jsOrQ override (codeAmount.getD 0)

/-- Route `POST /api/qr/scan` (payment-code redemption). -/
def qrScanRoute (s : BankState) (r : QrScanReq) : Resp QrScanOk × BankState :=
  match getUser s.users r.userId with
  | none => (.err .authFailed, s)
  | some u =>
    if u.isActive = false then (.err .authFailed, s) else
    if jsStrFalsy r.qrCode = true then (.err .qrCodeRequired, s) else
    match getQrPaymentByCode s.qrPayments (r.qrCode.getD "") r.now with
    | none => (.err .invalidOrExpiredQr, s)
    | some qp =>
      let paymentAmount := resolvedAmount r.amount qp.amount
      if paymentAmount ≤ 0 then (.err .invalidPaymentAmount, s) else
      if u.walletBalance < paymentAmount then (.err .insufficientWalletBalance, s) else
      let newWalletBalance := toFixed2 (u.walletBalance - paymentAmount)
      (.ok ⟨paymentAmount, qp.merchantName, newWalletBalance⟩,
       { s with txns := s.txns ++ [walletPaymentTxn u qp paymentAmount]
                users := updateUserWalletBalance s.users u.id newWalletBalance
                qrPayments := markQrPaymentAsUsed s.qrPayments qp.id })

/-- A money-moving operation, for statements about operation sequences. -/
inductive Op where
  | deposit (r : DepositReq)
  | withdraw (r : WithdrawReq)
  | transfer (r : TransferReq)
  | qrScan (r : QrScanReq)
  deriving DecidableEq, Repr

/-- State transition of one operation (the response is discarded). -/
def step (s : BankState) : Op → BankState
  | .deposit r => (depositRoute s r).2
  | .withdraw r => (withdrawRoute s r).2
  | .transfer r => (transferRoute s r).2
  | .qrScan r => (qrScanRoute s r).2

/-! ## Fraud detection (`server/fraud-detection.ts`) -/

/-- One detected fraud pattern with its fixed risk weight. -/
structure FraudPattern where
  type : String
  description : String
  riskScore : ℚ
  deriving DecidableEq, Repr

/-- Large transactions over $10,000. -/
def UNUSUAL_AMOUNT_THRESHOLD : ℚ := 10000

/-- More than 5 transactions in 1 hour. -/
def FREQUENT_TRANSACTIONS_THRESHOLD : Nat := 5

/-- Three transactions within 10 minutes. -/
def HIGH_VELOCITY_THRESHOLD : Nat := 3

/-- Check `isUnusualAmount`: amount over the threshold OR over 50% of the
acting account balance. -/
def isUnusualAmount (t : Txn) (u : User) : Bool :=
  decide (UNUSUAL_AMOUNT_THRESHOLD < t.amount) || decide (u.balance * (1 / 2) < t.amount)

/-- Check `isUnusualTime`: transaction hour in 11 PM – 6 AM
(`hour >= 23 || hour <= 6`). -/
def isUnusualTime (hour : Nat) : Bool :=
  decide (23 ≤ hour) || decide (hour ≤ 6)

/-- Check `isRoundAmount`: `amount % 1000 === 0 && amount >= 1000`.  A
JavaScript float is an exact multiple of 1000 iff, as a rational, it is an
integer whose numerator 1000 divides. -/
def isRoundAmount (a : ℚ) : Bool :=
  (decide (a.den = 1) && decide (a.num % 1000 = 0)) && decide (1000 ≤ a)

/-- Service `analyzeTransaction`.  The two history scans
(`getRecentTransactions` over the trailing 60 and 10 minutes) and the
transaction timestamp hour are inputs: `recentHourCount` and
`recentTenMinCount` are the lengths of the two filtered transaction lists,
`hour` is `new Date(transaction.createdAt).getHours()`. -/
def analyzeTransaction (t : Txn) (u : User)
    (recentHourCount recentTenMinCount hour : Nat) : List FraudPattern :=
  (if isUnusualAmount t u then
    [⟨"unusual_amount",
      "Transaction amount $" ++ toString t.amount ++
        " is significantly higher than user\x27s typical transactions", 75⟩]
   else []) ++
  (if FREQUENT_TRANSACTIONS_THRESHOLD ≤ recentHourCount then
    [⟨"frequent_transactions",
      "User has made " ++ toString recentHourCount ++ " transactions in the last hour", 60⟩]
   else []) ++
  (if HIGH_VELOCITY_THRESHOLD ≤ recentTenMinCount then
    [⟨"high_velocity",
      "User has made " ++ toString recentTenMinCount ++
        " transactions in the last 10 minutes", 80⟩]
   else []) ++
  (if isUnusualTime hour then
    [⟨"time_pattern",
      "Transaction made during unusual hours (late night/early morning)", 40⟩]
   else []) ++
  (if isRoundAmount t.amount then
    [⟨"round_amount",
      "Transaction is for a round amount, which is common in fraudulent activities", 30⟩]
   else [])

/-- Service `calculateRiskScore`: 0 when no pattern triggered, else the
average triggered weight plus a bonus of 10 per pattern capped at 30, the
total capped at 100. -/
def calculateRiskScore (ps : List FraudPattern) : ℚ :=
  if ps.length = 0 then 0
  else
    let totalScore := ps.foldl (fun sum p => sum + p.riskScore) 0
    let weightedScore := totalScore / (ps.length : ℚ)
    let patternBonus := min ((ps.length : ℚ) * 10) 30
    min (weightedScore + patternBonus) 100

/-! ## Derived predicates used by the claims -/

/-- Both balances of every account are non-negative. -/
def NonNeg (s : BankState) : Prop :=
  ∀ u ∈ s.users, 0 ≤ u.balance ∧ 0 ≤ u.walletBalance

instance (s : BankState) : Decidable (NonNeg s) := by
  unfold NonNeg; infer_instance

/-- Money held by one account across both balances. -/
def userMoney (u : User) : ℚ := u.balance + u.walletBalance

/-- Total money held across all accounts: `Σ (balance + walletBalance)`. -/
def totalMoney (s : BankState) : ℚ :=
  (s.users.map userMoney).sum

/-- A rational is a whole number of cents (minor currency units), i.e.
exactly representable in the `decimal(15,2)` columns the code stores
balances in.  The spec's data model makes all amounts integers in minor
units, so this is its ambient assumption. -/
def isCents (q : ℚ) : Prop := q.den ∣ 100

instance (q : ℚ) : Decidable (isCents q) := by
  unfold isCents; infer_instance

/-- Every balance in the state is a whole number of cents. -/
def centsState (s : BankState) : Prop :=
  ∀ u ∈ s.users, isCents u.balance ∧ isCents u.walletBalance

instance (s : BankState) : Decidable (centsState s) := by
  unfold centsState; infer_instance

/-- The user ids are pairwise distinct (the `users.id` primary key). -/
def idsNodup (s : BankState) : Prop :=
  (s.users.map User.id).Nodup

instance (s : BankState) : Decidable (idsNodup s) := by
  unfold idsNodup; infer_instance

/-! ## Concrete fixtures for witnesses and counterexamples -/

/-- Fixture account A: balance 5000, wallet 0 (the §8 withdraw scenario). -/
def userA : User :=
  { id := 1, accountNumber := "11110000", fullName := "A"
    balance := 5000, walletBalance := 0, isActive := true }

/-- Fixture account B. -/
def userB : User :=
  { id := 2, accountNumber := "22220000", fullName := "B"
    balance := 7500, walletBalance := 750, isActive := true }

/-- Fixture account C: balance 3000 (the §8 failing-transfer scenario),
wallet 1000 (the §8 redemption scenario). -/
def userC : User :=
  { id := 3, accountNumber := "33330000", fullName := "C"
    balance := 3000, walletBalance := 1000, isActive := true }

/-- Fixture state with the three accounts and empty logs. -/
def stateABC : BankState :=
  { users := [userA, userB, userC], txns := [], qrPayments := [], fraudAlerts := [] }

/-- Fixture payment code: unused, fixed amount 500, expiring at t = 1000. -/
def codeFresh : QrPayment :=
  { id := 7, userId := 2, qrCode := "q1", amount := some 500
    merchantName := some "M", isUsed := false, expiresAt := 1000 }

/-- Fixture payment code that has already been redeemed (`isUsed = true`). -/
def codeUsed : QrPayment :=
  { id := 8, userId := 2, qrCode := "q2", amount := some 500
    merchantName := some "M", isUsed := true, expiresAt := 1000 }

/-- Fixture state carrying both payment codes. -/
def stateQr : BankState :=
  { users := [userA, userB, userC], txns := [], qrPayments := [codeFresh, codeUsed]
    fraudAlerts := [] }

/-- Fixture state identical to `stateQr` but with no payment codes at all. -/
def stateNoQr : BankState :=
  { users := [userA, userB, userC], txns := [], qrPayments := [], fraudAlerts := [] }

/-- Fixture transaction for the §8 scoring scenario: a transfer of
9,999,999 minor units. -/
def bigTransferTxn : Txn := transferTxn userB userC 9999999

/-- The fraud patterns the fixture transaction triggers with 3 completed
transactions in the trailing 10 minutes (hence also 3 in the trailing
hour) at hour 12: `unusual_amount` and `high_velocity`. -/
def bigTransferPatterns : List FraudPattern :=
  analyzeTransaction bigTransferTxn userB 3 3 12

/-! ## Arithmetic helper lemmas -/

theorem toFixed2_nonneg {q : ℚ} (h : 0 ≤ q) : 0 ≤ toFixed2 q := by
  have h1 : (0 : ℤ) ≤ round (q * 100) := by
    rw [round_eq]
    refine Int.le_floor.mpr ?_
    push_cast
    linarith
  have h2 : (0 : ℚ) ≤ (round (q * 100) : ℚ) := by exact_mod_cast h1
  unfold toFixed2
  exact div_nonneg h2 (by norm_num)

theorem isCents_iff {q : ℚ} : isCents q ↔ ∃ n : ℤ, q * 100 = (n : ℚ) := by
  constructor
  · rintro ⟨k, hk⟩
    refine ⟨q.num * k, ?_⟩
    have hd : ((q.den : ℚ)) ≠ 0 := by exact_mod_cast q.den_ne_zero
    have hq := Rat.num_div_den q
    have h100 : (100 : ℚ) = (q.den : ℚ) * (k : ℚ) := by exact_mod_cast hk
    conv_lhs => rw [← hq]
    rw [h100]
    push_cast
    field_simp
    ring
  · rintro ⟨n, hn⟩
    have hq : q = (n : ℚ) / ((100 : ℤ) : ℚ) := by
      push_cast
      rw [eq_div_iff (by norm_num : (100 : ℚ) ≠ 0)]
      exact hn
    have hdvd : ((Rat.divInt n 100).den : ℤ) ∣ 100 := Rat.den_dvd n 100
    rw [Rat.divInt_eq_div] at hdvd
    rw [← hq] at hdvd
    unfold isCents
    exact_mod_cast hdvd

theorem isCents_add {a b : ℚ} (ha : isCents a) (hb : isCents b) : isCents (a + b) := by
  rw [isCents_iff] at ha hb ⊢
  obtain ⟨m, hm⟩ := ha
  obtain ⟨n, hn⟩ := hb
  refine ⟨m + n, ?_⟩
  push_cast
  linarith

theorem isCents_sub {a b : ℚ} (ha : isCents a) (hb : isCents b) : isCents (a - b) := by
  rw [isCents_iff] at ha hb ⊢
  obtain ⟨m, hm⟩ := ha
  obtain ⟨n, hn⟩ := hb
  refine ⟨m - n, ?_⟩
  push_cast
  linarith

theorem toFixed2_eq_self {q : ℚ} (h : isCents q) : toFixed2 q = q := by
  obtain ⟨n, hn⟩ := isCents_iff.mp h
  unfold toFixed2
  rw [hn, round_intCast]
  rw [div_eq_iff (by norm_num : (100 : ℚ) ≠ 0)]
  exact hn.symm

/-! ## Storage helper lemmas -/

theorem updateUserBalance_id_map (l : List User) (uid : Nat) (v : ℚ) :
    (updateUserBalance l uid v).map User.id = l.map User.id := by
  unfold updateUserBalance
  rw [List.map_map]
  refine List.map_congr_left ?_
  intro u _
  by_cases h : u.id = uid <;> simp [h]

theorem updateUserWalletBalance_id_map (l : List User) (uid : Nat) (v : ℚ) :
    (updateUserWalletBalance l uid v).map User.id = l.map User.id := by
  unfold updateUserWalletBalance
  rw [List.map_map]
  refine List.map_congr_left ?_
  intro u _
  by_cases h : u.id = uid <;> simp [h]

theorem getUser_updateUserBalance_self {l : List User} {uid : Nat} {u : User}
    (h : getUser l uid = some u) (v : ℚ) :
    getUser (updateUserBalance l uid v) uid = some { u with balance := v } := by
  simp only [getUser] at h
  simp only [getUser, updateUserBalance]
  rw [List.find?_map]
  have hp : ((fun x : User => x.id == uid) ∘ fun x : User =>
      if x.id == uid then { x with balance := v } else x) =
      fun x : User => x.id == uid := by
    funext x
    by_cases hx : x.id = uid <;> simp [hx]
  rw [hp, h]
  have hu := List.find?_some h
  have huid : u.id = uid := eq_of_beq hu
  simp [huid]

theorem getUser_updateUserBalance_ne {l : List User} {uid j : Nat}
    (hne : j ≠ uid) (v : ℚ) :
    getUser (updateUserBalance l uid v) j = getUser l j := by
  unfold getUser updateUserBalance
  rw [List.find?_map]
  have hp : ((fun x : User => x.id == j) ∘ fun x : User =>
      if x.id == uid then { x with balance := v } else x) =
      fun x : User => x.id == j := by
    funext x
    by_cases hx : x.id = uid <;> simp [hx]
  rw [hp]
  cases hfind : l.find? (fun x : User => x.id == j) with
  | none => rfl
  | some x =>
    have hx := List.find?_some hfind
    have hxj : x.id = j := eq_of_beq hx
    simp [hxj, hne]

theorem getUser_updateUserWalletBalance_self {l : List User} {uid : Nat} {u : User}
    (h : getUser l uid = some u) (v : ℚ) :
    getUser (updateUserWalletBalance l uid v) uid = some { u with walletBalance := v } := by
  simp only [getUser] at h
  simp only [getUser, updateUserWalletBalance]
  rw [List.find?_map]
  have hp : ((fun x : User => x.id == uid) ∘ fun x : User =>
      if x.id == uid then { x with walletBalance := v } else x) =
      fun x : User => x.id == uid := by
    funext x
    by_cases hx : x.id = uid <;> simp [hx]
  rw [hp, h]
  have hu := List.find?_some h
  have huid : u.id = uid := eq_of_beq hu
  simp [huid]

theorem getUser_updateUserWalletBalance_ne {l : List User} {uid j : Nat}
    (hne : j ≠ uid) (v : ℚ) :
    getUser (updateUserWalletBalance l uid v) j = getUser l j := by
  unfold getUser updateUserWalletBalance
  rw [List.find?_map]
  have hp : ((fun x : User => x.id == j) ∘ fun x : User =>
      if x.id == uid then { x with walletBalance := v } else x) =
      fun x : User => x.id == j := by
    funext x
    by_cases hx : x.id = uid <;> simp [hx]
  rw [hp]
  cases hfind : l.find? (fun x : User => x.id == j) with
  | none => rfl
  | some x =>
    have hx := List.find?_some hfind
    have hxj : x.id = j := eq_of_beq hx
    simp [hxj, hne]

theorem updateUserBalance_eq_of_forall {l : List User} {uid : Nat} {v : ℚ}
    (h : ∀ x ∈ l, (x.id == uid) = false) : updateUserBalance l uid v = l := by
  induction l with
  | nil => rfl
  | cons a t ih =>
    have ha := h a (List.mem_cons_self a t)
    unfold updateUserBalance at ih ⊢
    simp only [List.map_cons, ha, if_neg]
    rw [ih fun x hx => h x (List.mem_cons_of_mem a hx)]
    simp

theorem find?_id_of_mem {l : List User} (hnd : (l.map User.id).Nodup) {x : User}
    (hx : x ∈ l) : l.find? (fun u => u.id == x.id) = some x := by
  induction l with
  | nil => cases hx
  | cons a t ih =>
    rw [List.map_cons, List.nodup_cons] at hnd
    rcases List.mem_cons.mp hx with rfl | hx2
    · simp
    · have hne : (a.id == x.id) = false := by
        refine beq_eq_false_iff_ne.mpr ?_
        intro he
        exact hnd.1 (he ▸ List.mem_map_of_mem User.id hx2)
      rw [List.find?_cons_of_neg _ (by simp [hne])]
      exact ih hnd.2 hx2

theorem updateUserWalletBalance_eq_of_forall {l : List User} {uid : Nat} {v : ℚ}
    (h : ∀ x ∈ l, (x.id == uid) = false) : updateUserWalletBalance l uid v = l := by
  induction l with
  | nil => rfl
  | cons a t ih =>
    have ha := h a (List.mem_cons_self a t)
    unfold updateUserWalletBalance at ih ⊢
    simp only [List.map_cons, ha, if_neg]
    rw [ih fun x hx => h x (List.mem_cons_of_mem a hx)]
    simp

theorem sum_updateUserBalance {l : List User} {uid : Nat} {u : User} (v : ℚ)
    (hnd : (l.map User.id).Nodup) (h : l.find? (fun x => x.id == uid) = some u) :
    ((updateUserBalance l uid v).map userMoney).sum
      = (l.map userMoney).sum - u.balance + v := by
  induction l with
  | nil => simp at h
  | cons a t ih =>
    rw [List.map_cons, List.nodup_cons] at hnd
    by_cases ha : (a.id == uid)
    · rw [List.find?_cons_of_pos (p := fun x : User => x.id == uid) t ha] at h
      obtain rfl : a = u := by injection h
      have hta : updateUserBalance t uid v = t := by
        refine updateUserBalance_eq_of_forall fun x hx => ?_
        refine beq_eq_false_iff_ne.mpr ?_
        intro he
        have hau : a.id = uid := eq_of_beq ha
        exact hnd.1 ((hau.trans he.symm) ▸ List.mem_map_of_mem User.id hx)
      unfold updateUserBalance at hta ⊢
      simp only [List.map_cons, ha, if_pos, hta, List.sum_cons, userMoney]
      ring
    · rw [List.find?_cons_of_neg (p := fun x : User => x.id == uid) t (by simp [ha])] at h
      have htail := ih hnd.2 h
      unfold updateUserBalance at htail ⊢
      simp only [List.map_cons]
      rw [if_neg ha]
      simp only [List.sum_cons]
      rw [htail]
      ring

theorem sum_updateUserWalletBalance {l : List User} {uid : Nat} {u : User} (v : ℚ)
    (hnd : (l.map User.id).Nodup) (h : l.find? (fun x => x.id == uid) = some u) :
    ((updateUserWalletBalance l uid v).map userMoney).sum
      = (l.map userMoney).sum - u.walletBalance + v := by
  induction l with
  | nil => simp at h
  | cons a t ih =>
    rw [List.map_cons, List.nodup_cons] at hnd
    by_cases ha : (a.id == uid)
    · rw [List.find?_cons_of_pos (p := fun x : User => x.id == uid) t ha] at h
      obtain rfl : a = u := by injection h
      have hta : updateUserWalletBalance t uid v = t := by
        refine updateUserWalletBalance_eq_of_forall fun x hx => ?_
        refine beq_eq_false_iff_ne.mpr ?_
        intro he
        have hau : a.id = uid := eq_of_beq ha
        exact hnd.1 ((hau.trans he.symm) ▸ List.mem_map_of_mem User.id hx)
      unfold updateUserWalletBalance at hta ⊢
      simp only [List.map_cons, ha, if_pos, hta, List.sum_cons, userMoney]
      ring
    · rw [List.find?_cons_of_neg (p := fun x : User => x.id == uid) t (by simp [ha])] at h
      have htail := ih hnd.2 h
      unfold updateUserWalletBalance at htail ⊢
      simp only [List.map_cons]
      rw [if_neg ha]
      simp only [List.sum_cons]
      rw [htail]
      ring

theorem depositRoute_state_or_ok (s : BankState) (r : DepositReq) :
    (depositRoute s r).2 = s ∨ ∃ v, (depositRoute s r).1 = Resp.ok v := by
  unfold depositRoute
  cases hg : getUser s.users r.userId <;> simp only [hg] <;>
    first
      | exact Or.inl trivial
      | split_ifs <;> first | exact Or.inl rfl | exact Or.inr ⟨_, rfl⟩

theorem withdrawRoute_state_or_ok (s : BankState) (r : WithdrawReq) :
    (withdrawRoute s r).2 = s ∨ ∃ v, (withdrawRoute s r).1 = Resp.ok v := by
  unfold withdrawRoute
  cases hg : getUser s.users r.userId <;> simp only [hg] <;>
    first
      | exact Or.inl trivial
      | split_ifs <;> first | exact Or.inl rfl | exact Or.inr ⟨_, rfl⟩

theorem transferRoute_state_or_ok (s : BankState) (r : TransferReq) :
    (transferRoute s r).2 = s ∨ ∃ v, (transferRoute s r).1 = Resp.ok v := by
  unfold transferRoute
  cases hg : getUser s.users r.userId <;> simp only [hg] <;>
    first
      | exact Or.inl trivial
      | (cases hg2 : getUserByAccountNumber s.users (r.toAccountNumber.getD "") <;>
          simp only [hg2] <;>
          first
            | exact Or.inl trivial
            | split_ifs <;> first | exact Or.inl trivial | exact Or.inl rfl | exact Or.inr ⟨_, rfl⟩)

theorem qrScanRoute_state_or_ok (s : BankState) (r : QrScanReq) :
    (qrScanRoute s r).2 = s ∨ ∃ v, (qrScanRoute s r).1 = Resp.ok v := by
  unfold qrScanRoute
  cases hg : getUser s.users r.userId <;> simp only [hg] <;>
    first
      | exact Or.inl trivial
      | (cases hg2 : getQrPaymentByCode s.qrPayments (r.qrCode.getD "") r.now <;>
          simp only [hg2] <;>
          first
            | exact Or.inl trivial
            | split_ifs <;> first | exact Or.inl trivial | exact Or.inl rfl | exact Or.inr ⟨_, rfl⟩)

theorem depositRoute_err_state {s : BankState} {r : DepositReq} {e : ApiError}
    (h : (depositRoute s r).1 = .err e) : (depositRoute s r).2 = s := by
  rcases depositRoute_state_or_ok s r with h2 | ⟨v, hv⟩
  · exact h2
  · rw [hv] at h
    simp at h

theorem withdrawRoute_err_state {s : BankState} {r : WithdrawReq} {e : ApiError}
    (h : (withdrawRoute s r).1 = .err e) : (withdrawRoute s r).2 = s := by
  rcases withdrawRoute_state_or_ok s r with h2 | ⟨v, hv⟩
  · exact h2
  · rw [hv] at h
    simp at h

theorem transferRoute_err_state {s : BankState} {r : TransferReq} {e : ApiError}
    (h : (transferRoute s r).1 = .err e) : (transferRoute s r).2 = s := by
  rcases transferRoute_state_or_ok s r with h2 | ⟨v, hv⟩
  · exact h2
  · rw [hv] at h
    simp at h

theorem qrScanRoute_err_state {s : BankState} {r : QrScanReq} {e : ApiError}
    (h : (qrScanRoute s r).1 = .err e) : (qrScanRoute s r).2 = s := by
  rcases qrScanRoute_state_or_ok s r with h2 | ⟨v, hv⟩
  · exact h2
  · rw [hv] at h
    simp at h

theorem depositRoute_fraudAlerts (s : BankState) (r : DepositReq) :
    (depositRoute s r).2.fraudAlerts = s.fraudAlerts := by
  unfold depositRoute
  cases hg : getUser s.users r.userId <;> simp only [hg] <;>
    first
      | rfl
      | split_ifs <;> rfl

theorem withdrawRoute_fraudAlerts (s : BankState) (r : WithdrawReq) :
    (withdrawRoute s r).2.fraudAlerts = s.fraudAlerts := by
  unfold withdrawRoute
  cases hg : getUser s.users r.userId <;> simp only [hg] <;>
    first
      | rfl
      | split_ifs <;> rfl

theorem transferRoute_fraudAlerts (s : BankState) (r : TransferReq) :
    (transferRoute s r).2.fraudAlerts = s.fraudAlerts := by
  unfold transferRoute
  cases hg : getUser s.users r.userId <;> simp only [hg] <;>
    first
      | rfl
      | (cases hg2 : getUserByAccountNumber s.users (r.toAccountNumber.getD "") <;>
          simp only [hg2] <;>
          first
            | rfl
            | split_ifs <;> rfl)

theorem qrScanRoute_fraudAlerts (s : BankState) (r : QrScanReq) :
    (qrScanRoute s r).2.fraudAlerts = s.fraudAlerts := by
  unfold qrScanRoute
  cases hg : getUser s.users r.userId <;> simp only [hg] <;>
    first
      | rfl
      | (cases hg2 : getQrPaymentByCode s.qrPayments (r.qrCode.getD "") r.now <;>
          simp only [hg2] <;>
          first
            | rfl
            | split_ifs <;> rfl)

theorem step_fraudAlerts (s : BankState) (op : Op) :
    (step s op).fraudAlerts = s.fraudAlerts := by
  cases op with
  | deposit r => exact depositRoute_fraudAlerts s r
  | withdraw r => exact withdrawRoute_fraudAlerts s r
  | transfer r => exact transferRoute_fraudAlerts s r
  | qrScan r => exact qrScanRoute_fraudAlerts s r

theorem withdrawRoute_spec {s : BankState} {r : WithdrawReq} {u : User}
    (hu : getUser s.users r.userId = some u) (hact : u.isActive = true)
    (hv : validTxnReq r.amount r.pin) (hp : r.pinOk = true)
    (hb : ¬ u.balance < r.amount) :
    withdrawRoute s r =
      (.ok ⟨toFixed2 (u.balance - r.amount), toFixed2 (u.walletBalance + r.amount), r.amount⟩,
       { s with txns := s.txns ++ [withdrawTxn u r.amount]
                users := updateUserWalletBalance
                  (updateUserBalance s.users u.id (toFixed2 (u.balance - r.amount)))
                  u.id (toFixed2 (u.walletBalance + r.amount)) }) := by
  simp only [withdrawRoute, hu]
  rw [if_neg (by simp [hact] : ¬ u.isActive = false), if_pos hv,
    if_neg (by simp [hp] : ¬ r.pinOk = false), if_neg hb]

theorem transferRoute_spec {s : BankState} {r : TransferReq} {u toUser : User}
    (hu : getUser s.users r.userId = some u) (hact : u.isActive = true)
    (hv : validTxnReq r.amount r.pin) (hdest : jsStrFalsy r.toAccountNumber = false)
    (hp : r.pinOk = true)
    (hto : getUserByAccountNumber s.users (r.toAccountNumber.getD "") = some toUser)
    (htoact : toUser.isActive = true) (hne : toUser.id ≠ u.id)
    (hb : ¬ u.balance < r.amount) :
    transferRoute s r =
      (.ok ⟨toFixed2 (u.balance - r.amount), r.amount, toUser.fullName⟩,
       { s with txns := s.txns ++ [transferTxn u toUser r.amount]
                users := updateUserBalance
                  (updateUserBalance s.users u.id (toFixed2 (u.balance - r.amount)))
                  toUser.id (toFixed2 (toUser.balance + r.amount)) }) := by
  simp only [transferRoute, hu]
  rw [if_neg (by simp [hact] : ¬ u.isActive = false), if_pos hv,
    if_neg (by simp [hdest] : ¬ jsStrFalsy r.toAccountNumber = true),
    if_neg (by simp [hp] : ¬ r.pinOk = false)]
  simp only [hto]
  rw [if_neg (by simp [htoact] : ¬ toUser.isActive = false), if_neg hne, if_neg hb]

theorem qrScanRoute_spec {s : BankState} {r : QrScanReq} {u : User} {qp : QrPayment}
    (hu : getUser s.users r.userId = some u) (hact : u.isActive = true)
    (hqr : jsStrFalsy r.qrCode = false)
    (hfind : getQrPaymentByCode s.qrPayments (r.qrCode.getD "") r.now = some qp)
    (hpa : ¬ resolvedAmount r.amount qp.amount ≤ 0)
    (hw : ¬ u.walletBalance < resolvedAmount r.amount qp.amount) :
    qrScanRoute s r =
      (.ok ⟨resolvedAmount r.amount qp.amount, qp.merchantName,
            toFixed2 (u.walletBalance - resolvedAmount r.amount qp.amount)⟩,
       { s with txns := s.txns ++ [walletPaymentTxn u qp (resolvedAmount r.amount qp.amount)]
                users := updateUserWalletBalance s.users u.id
                  (toFixed2 (u.walletBalance - resolvedAmount r.amount qp.amount))
                qrPayments := markQrPaymentAsUsed s.qrPayments qp.id }) := by
  simp only [qrScanRoute, hu]
  rw [if_neg (by simp [hact] : ¬ u.isActive = false),
    if_neg (by simp [hqr] : ¬ jsStrFalsy r.qrCode = true)]
  simp only [hfind]
  rw [if_neg hpa, if_neg hw]

end EBank

namespace EBank

theorem forall_updateUserBalance {P : User → Prop} {l : List User} (uid : Nat) (v : ℚ)
    (h : ∀ u ∈ l, P u) (hv : ∀ u ∈ l, P { u with balance := v }) :
    ∀ u ∈ updateUserBalance l uid v, P u := by
  intro x hx
  rcases List.mem_map.mp hx with ⟨w, hw, rfl⟩
  by_cases hid : w.id = uid
  · simpa [hid] using hv w hw
  · simpa [hid] using h w hw

theorem forall_updateUserWalletBalance {P : User → Prop} {l : List User} (uid : Nat) (v : ℚ)
    (h : ∀ u ∈ l, P u) (hv : ∀ u ∈ l, P { u with walletBalance := v }) :
    ∀ u ∈ updateUserWalletBalance l uid v, P u := by
  intro x hx
  rcases List.mem_map.mp hx with ⟨w, hw, rfl⟩
  by_cases hid : w.id = uid
  · simpa [hid] using hv w hw
  · simpa [hid] using h w hw

theorem depositRoute_nonneg {s : BankState} (h : NonNeg s) (r : DepositReq) :
    NonNeg (depositRoute s r).2 := by
  unfold depositRoute
  cases hg : getUser s.users r.userId <;> simp only [hg]
  · exact h
  case some u =>
    split_ifs with h1 h2 h3
    all_goals try exact h
    have hmem : u ∈ s.users := List.mem_of_find?_eq_some hg
    have hb : 0 ≤ toFixed2 (u.balance + r.amount) :=
      toFixed2_nonneg (add_nonneg (h u hmem).1 h2.1.le)
    intro x hx
    exact forall_updateUserBalance u.id _ h (fun w hw => ⟨hb, (h w hw).2⟩) x hx

theorem withdrawRoute_nonneg {s : BankState} (h : NonNeg s) (r : WithdrawReq) :
    NonNeg (withdrawRoute s r).2 := by
  unfold withdrawRoute
  cases hg : getUser s.users r.userId <;> simp only [hg]
  · exact h
  case some u =>
    split_ifs with h1 h2 h3 h4
    all_goals try exact h
    have hmem : u ∈ s.users := List.mem_of_find?_eq_some hg
    have hb : 0 ≤ toFixed2 (u.balance - r.amount) :=
      toFixed2_nonneg (sub_nonneg.mpr (not_lt.mp h4))
    have hw2 : 0 ≤ toFixed2 (u.walletBalance + r.amount) :=
      toFixed2_nonneg (add_nonneg (h u hmem).2 h2.1.le)
    intro x hx
    have hmid := forall_updateUserBalance u.id (toFixed2 (u.balance - r.amount))
      h (fun w hw => ⟨hb, (h w hw).2⟩)
    exact forall_updateUserWalletBalance u.id _ hmid
      (fun w hw => ⟨(hmid w hw).1, hw2⟩) x hx

theorem transferRoute_nonneg {s : BankState} (h : NonNeg s) (r : TransferReq) :
    NonNeg (transferRoute s r).2 := by
  unfold transferRoute
  cases hg : getUser s.users r.userId <;> simp only [hg]
  · exact h
  case some u =>
    cases hg2 : getUserByAccountNumber s.users (r.toAccountNumber.getD "") <;> simp only [hg2]
    · split_ifs <;> exact h
    · rename_i toUser
      split_ifs with h1 h2 h3 h4 h5 h6 h7
      all_goals try exact h
      have hmem : u ∈ s.users := List.mem_of_find?_eq_some hg
      have htomem : toUser ∈ s.users := List.mem_of_find?_eq_some hg2
      have hb1 : 0 ≤ toFixed2 (u.balance - r.amount) :=
        toFixed2_nonneg (sub_nonneg.mpr (not_lt.mp h7))
      have hb2 : 0 ≤ toFixed2 (toUser.balance + r.amount) :=
        toFixed2_nonneg (add_nonneg (h toUser htomem).1 h2.1.le)
      intro x hx
      have hmid := forall_updateUserBalance u.id (toFixed2 (u.balance - r.amount))
        h (fun w hw => ⟨hb1, (h w hw).2⟩)
      exact forall_updateUserBalance toUser.id _ hmid
        (fun w hw => ⟨hb2, (hmid w hw).2⟩) x hx

theorem qrScanRoute_nonneg {s : BankState} (h : NonNeg s) (r : QrScanReq) :
    NonNeg (qrScanRoute s r).2 := by
  unfold qrScanRoute
  cases hg : getUser s.users r.userId <;> simp only [hg]
  · exact h
  case some u =>
    cases hg2 : getQrPaymentByCode s.qrPayments (r.qrCode.getD "") r.now <;> simp only [hg2]
    · split_ifs <;> exact h
    · rename_i qp
      split_ifs with h1 h2 h3 h4
      all_goals try exact h
      have hw : 0 ≤ toFixed2 (u.walletBalance - resolvedAmount r.amount qp.amount) :=
        toFixed2_nonneg (sub_nonneg.mpr (not_lt.mp h4))
      intro x hx
      exact forall_updateUserWalletBalance u.id _ h (fun w hw2 => ⟨(h w hw2).1, hw⟩) x hx

theorem step_nonneg {s : BankState} (h : NonNeg s) (op : Op) : NonNeg (step s op) := by
  cases op with
  | deposit r => exact depositRoute_nonneg h r
  | withdraw r => exact withdrawRoute_nonneg h r
  | transfer r => exact transferRoute_nonneg h r
  | qrScan r => exact qrScanRoute_nonneg h r

/-- C1: starting from accounts with non-negative balances, every sequence
of deposit, withdraw-to-wallet, transfer and QR wallet-payment operations
keeps `balance` and `walletBalance` of every account non-negative, after
every single operation and after any whole sequence.  The code enforces
this through its guards: deposits only add a (schema-positive) amount,
withdrawals require `balance >= amount`, transfers require the source
`balance >= amount`, and QR redemption requires
`walletBalance >= resolved amount` (so the positivity of each requested
amount claimed in the spec is not even needed for the invariant). -/
theorem claim1_nonneg_invariant (s : BankState) (h : NonNeg s) :
    (∀ op : Op, NonNeg (step s op)) ∧ ∀ ops : List Op, NonNeg (ops.foldl step s) := by
  refine ⟨fun op => step_nonneg h op, fun ops => ?_⟩
  induction ops generalizing s with
  | nil => exact h
  | cons op t ih => exact ih (step s op) (step_nonneg h op)

/-- Witness for C1 at a concrete state and operation sequence. -/
theorem claim1_nonneg_invariant_witness :
    NonNeg stateABC
    ∧ NonNeg (step stateABC (Op.withdraw ⟨1, 2000, "1234", true⟩))
    ∧ NonNeg ([Op.withdraw ⟨1, 2000, "1234", true⟩,
               Op.transfer ⟨2, 500, "5678", true, some "11110000"⟩,
               Op.deposit ⟨3, 250, "9876", true⟩].foldl step stateABC) := by
  have h0 : NonNeg stateABC := by decide
  exact ⟨h0, (claim1_nonneg_invariant stateABC h0).1 _,
    (claim1_nonneg_invariant stateABC h0).2 _⟩

end EBank

namespace EBank

theorem transferRoute_conserves {s : BankState} (hnd : idsNodup s) (hc : centsState s)
    {t : TransferReq} (hca : isCents t.amount) :
    totalMoney (transferRoute s t).2 = totalMoney s
    ∧ idsNodup (transferRoute s t).2 ∧ centsState (transferRoute s t).2 := by
  unfold transferRoute
  cases hg : getUser s.users t.userId <;> simp only [hg]
  · exact ⟨trivial, hnd, hc⟩
  case some u =>
    cases hg2 : getUserByAccountNumber s.users (t.toAccountNumber.getD "") <;> simp only [hg2]
    · split_ifs <;> exact ⟨rfl, hnd, hc⟩
    · rename_i toUser
      split_ifs with h1 h2 h3 h4 h5 h6 h7
      all_goals try exact ⟨rfl, hnd, hc⟩
      have hmem : u ∈ s.users := List.mem_of_find?_eq_some hg
      have htomem : toUser ∈ s.users := List.mem_of_find?_eq_some hg2
      have hcu := hc u hmem
      have hcto := hc toUser htomem
      have hv1 : toFixed2 (u.balance - t.amount) = u.balance - t.amount :=
        toFixed2_eq_self (isCents_sub hcu.1 hca)
      have hv2 : toFixed2 (toUser.balance + t.amount) = toUser.balance + t.amount :=
        toFixed2_eq_self (isCents_add hcto.1 hca)
      have hg3 : s.users.find? (fun x => x.id == t.userId) = some u := hg
      have hbeq := List.find?_some hg3
      have huid : u.id = t.userId := eq_of_beq hbeq
      have hfindu : s.users.find? (fun x => x.id == u.id) = some u := by
        rw [huid]; exact hg3
      have hfindto : s.users.find? (fun x => x.id == toUser.id) = some toUser :=
        find?_id_of_mem hnd htomem
      have hfindto1 : (updateUserBalance s.users u.id (toFixed2 (u.balance - t.amount))).find?
          (fun x => x.id == toUser.id) = some toUser := by
        have h9 : getUser (updateUserBalance s.users u.id
            (toFixed2 (u.balance - t.amount))) toUser.id = getUser s.users toUser.id :=
          getUser_updateUserBalance_ne h6 (toFixed2 (u.balance - t.amount))
        unfold getUser at h9
        exact h9.trans hfindto
      have hnd1 : ((updateUserBalance s.users u.id
          (toFixed2 (u.balance - t.amount))).map User.id).Nodup := by
        rw [updateUserBalance_id_map]; exact hnd
      refine ⟨?_, ?_, ?_⟩
      · show ((updateUserBalance (updateUserBalance s.users u.id
            (toFixed2 (u.balance - t.amount))) toUser.id
            (toFixed2 (toUser.balance + t.amount))).map userMoney).sum = _
        rw [sum_updateUserBalance _ hnd1 hfindto1, sum_updateUserBalance _ hnd hfindu,
          hv1, hv2]
        show _ = (s.users.map userMoney).sum
        ring
      · show ((updateUserBalance (updateUserBalance s.users u.id _) toUser.id _).map
            User.id).Nodup
        rw [updateUserBalance_id_map, updateUserBalance_id_map]
        exact hnd
      · intro x hx
        have hca1 : isCents (toFixed2 (u.balance - t.amount)) := by
          rw [hv1]; exact isCents_sub hcu.1 hca
        have hca2 : isCents (toFixed2 (toUser.balance + t.amount)) := by
          rw [hv2]; exact isCents_add hcto.1 hca
        have hmid := forall_updateUserBalance u.id (toFixed2 (u.balance - t.amount))
          hc (fun w hw => ⟨hca1, (hc w hw).2⟩)
        exact forall_updateUserBalance toUser.id _ hmid
          (fun w hw => ⟨hca2, (hmid w hw).2⟩) x hx

theorem transferRoute_fold_conserves (ts : List TransferReq) :
    ∀ s : BankState, idsNodup s → centsState s → (∀ t ∈ ts, isCents t.amount) →
      totalMoney (ts.foldl (fun s1 t => (transferRoute s1 t).2) s) = totalMoney s := by
  induction ts with
  | nil => intro s _ _ _; rfl
  | cons t ts2 ih =>
    intro s hnd hc hts
    have h1 := transferRoute_conserves hnd hc (hts t (List.mem_cons_self t ts2))
    simp only [List.foldl_cons]
    rw [ih _ h1.2.1 h1.2.2 (fun x hx => hts x (List.mem_cons_of_mem t hx)), h1.1]

/-- C2: among a closed set of accounts with distinct ids and cent-valued
balances (the precision of the `decimal(15,2)` columns and the spec's
minor-unit data model), any sequence of transfers of cent-valued amounts
leaves the total `balance + walletBalance` over all accounts unchanged:
a successful transfer debits the source by exactly the amount credited to
the destination, and a failed transfer returns the state untouched. -/
theorem claim2_transfer_conservation (s : BankState) (hnd : idsNodup s) (hc : centsState s) :
    (∀ ts : List TransferReq, (∀ t ∈ ts, isCents t.amount) →
        totalMoney (ts.foldl (fun s1 t => (transferRoute s1 t).2) s) = totalMoney s)
    ∧ ∀ (t : TransferReq) (e : ApiError), (transferRoute s t).1 = .err e →
        (transferRoute s t).2 = s := by
  refine ⟨fun ts hts => transferRoute_fold_conserves ts s hnd hc hts, ?_⟩
  intro t e h
  exact transferRoute_err_state h

/-- Witness for C2: two concrete transfers among the three fixture
accounts, and a rejected transfer. -/
theorem claim2_transfer_conservation_witness :
    idsNodup stateABC ∧ centsState stateABC
    ∧ totalMoney ([(⟨1, 1000, "1234", true, some "22220000"⟩ : TransferReq),
                   ⟨2, 700, "5678", true, some "33330000"⟩].foldl
          (fun s1 t => (transferRoute s1 t).2) stateABC) = totalMoney stateABC
    ∧ ((transferRoute stateABC ⟨3, 4000, "9876", true, some "22220000"⟩).1
          = .err .insufficientBalance →
        (transferRoute stateABC ⟨3, 4000, "9876", true, some "22220000"⟩).2 = stateABC) := by
  have hnd : idsNodup stateABC := by decide
  have hc : centsState stateABC := by decide
  refine ⟨hnd, hc, (claim2_transfer_conservation stateABC hnd hc).1 _ (by decide), ?_⟩
  exact fun h => (claim2_transfer_conservation stateABC hnd hc).2 _ _ h

end EBank

namespace EBank

theorem transferRoute_insufficient {s : BankState} {r : TransferReq} {u toUser : User}
    (hu : getUser s.users r.userId = some u) (hact : u.isActive = true)
    (hv : validTxnReq r.amount r.pin) (hdest : jsStrFalsy r.toAccountNumber = false)
    (hp : r.pinOk = true)
    (hto : getUserByAccountNumber s.users (r.toAccountNumber.getD "") = some toUser)
    (htoact : toUser.isActive = true) (hne : toUser.id ≠ u.id)
    (hlt : u.balance < r.amount) :
    transferRoute s r = (.err .insufficientBalance, s) := by
  simp only [transferRoute, hu]
  rw [if_neg (by simp [hact] : ¬ u.isActive = false), if_pos hv,
    if_neg (by simp [hdest] : ¬ jsStrFalsy r.toAccountNumber = true),
    if_neg (by simp [hp] : ¬ r.pinOk = false)]
  simp only [hto]
  rw [if_neg (by simp [htoact] : ¬ toUser.isActive = false), if_neg hne, if_pos hlt]

/-- C3: a transfer whose amount exceeds the source balance — all earlier
checks passing — fails with the insufficient-balance error and returns the
state exactly as it was: balances, wallet balances and the transaction log
are untouched; and for every rejected deposit, withdraw-to-wallet or
transfer request, the whole state (hence the transaction log) is
unchanged — no Transaction row is ever written for a rejected operation. -/
theorem claim3_rejected_ops_write_nothing (s : BankState) (r : TransferReq)
    (u toUser : User)
    (hu : getUser s.users r.userId = some u) (hact : u.isActive = true)
    (hv : validTxnReq r.amount r.pin) (hdest : jsStrFalsy r.toAccountNumber = false)
    (hp : r.pinOk = true)
    (hto : getUserByAccountNumber s.users (r.toAccountNumber.getD "") = some toUser)
    (htoact : toUser.isActive = true) (hne : toUser.id ≠ u.id)
    (hlt : u.balance < r.amount) :
    transferRoute s r = (.err .insufficientBalance, s)
    ∧ (∀ (r2 : DepositReq) (e : ApiError), (depositRoute s r2).1 = .err e →
        (depositRoute s r2).2 = s)
    ∧ (∀ (r2 : WithdrawReq) (e : ApiError), (withdrawRoute s r2).1 = .err e →
        (withdrawRoute s r2).2 = s)
    ∧ ∀ (r2 : TransferReq) (e : ApiError), (transferRoute s r2).1 = .err e →
        (transferRoute s r2).2 = s := by
  refine ⟨transferRoute_insufficient hu hact hv hdest hp hto htoact hne hlt, ?_, ?_, ?_⟩
  · exact fun r2 e h => depositRoute_err_state h
  · exact fun r2 e h => withdrawRoute_err_state h
  · exact fun r2 e h => transferRoute_err_state h

/-- Witness for C3: account C has balance 3000; `transfer(C, B, 4000)`
fails with the insufficient-balance error and leaves the state intact. -/
theorem claim3_rejected_ops_write_nothing_witness :
    transferRoute stateABC ⟨3, 4000, "9876", true, some "22220000"⟩
      = (.err .insufficientBalance, stateABC)
    ∧ userC.balance = 3000 := by
  have h := claim3_rejected_ops_write_nothing stateABC
    ⟨3, 4000, "9876", true, some "22220000"⟩ userC userB
    (by decide) (by decide) (by decide) (by decide) rfl (by decide) (by decide)
    (by decide) (by decide)
  exact ⟨h.1, by decide⟩

end EBank

namespace EBank

/-- C4 counterexample: the claim says a redemption attempted at any time
`t >= expiresAt` fails with a CodeExpired error.  But the storage filter
is `expiresAt >= now`, so at exactly `t = expiresAt` the redemption
succeeds: the wallet is debited and the code is consumed. -/
theorem claim4_counterexample :
    codeFresh.isUsed = false
    ∧ (⟨3, some "q1", none, codeFresh.expiresAt⟩ : QrScanReq).now = codeFresh.expiresAt
    ∧ (qrScanRoute stateQr ⟨3, some "q1", none, codeFresh.expiresAt⟩).1
        = .ok ⟨500, some "M", 500⟩
    ∧ (qrScanRoute stateQr ⟨3, some "q1", none, codeFresh.expiresAt⟩).2.qrPayments
        = [{ codeFresh with isUsed := true }, codeUsed]
    ∧ (getUser (qrScanRoute stateQr ⟨3, some "q1", none, codeFresh.expiresAt⟩).2.users 3).map
        User.walletBalance = some 500 := by
  decide

/-- C4 amended: the code conflates expired, used and absent codes into a
single 404 invalid-or-expired response, and its filter `expiresAt >= now`
still allows redemption at exactly `t = expiresAt`.  Amended claim: a
redemption attempted at any time strictly after `expiresAt` (for every
code carrying the scanned token) fails with the combined
invalid-or-expired error, debits no wallet, and leaves all state —
including the used flag — unchanged. -/
theorem claim4_expired_code_rejected (s : BankState) (r : QrScanReq) (u : User) (c : String)
    (hu : getUser s.users r.userId = some u) (hact : u.isActive = true)
    (hc : r.qrCode = some c) (hc0 : c ≠ "")
    (hexp : ∀ qp ∈ s.qrPayments, qp.qrCode = c → qp.expiresAt < r.now) :
    (qrScanRoute s r).1 = .err .invalidOrExpiredQr ∧ (qrScanRoute s r).2 = s := by
  have hqr : jsStrFalsy r.qrCode = false := by
    rw [hc]
    simp [jsStrFalsy, hc0]
  have hgetD : r.qrCode.getD "" = c := by rw [hc]; rfl
  have hfind : getQrPaymentByCode s.qrPayments (r.qrCode.getD "") r.now = none := by
    unfold getQrPaymentByCode
    rw [List.find?_eq_none]
    intro p hp
    simp only [hgetD, Bool.and_eq_true, beq_iff_eq, decide_eq_true_eq]
    rintro ⟨⟨hcode, _⟩, hle⟩
    exact absurd hle (not_le.mpr (hexp p hp hcode))
  simp only [qrScanRoute, hu]
  rw [if_neg (by simp [hact] : ¬ u.isActive = false),
    if_neg (by simp [hqr] : ¬ jsStrFalsy r.qrCode = true)]
  simp only [hfind]
  exact ⟨by trivial, by trivial⟩

/-- Witness for the amended C4 at a concrete expired lookup. -/
theorem claim4_expired_code_rejected_witness :
    (∀ qp ∈ stateQr.qrPayments, qp.qrCode = "q1" → qp.expiresAt < 2000)
    ∧ (qrScanRoute stateQr ⟨3, some "q1", none, 2000⟩).1 = .err .invalidOrExpiredQr
    ∧ (qrScanRoute stateQr ⟨3, some "q1", none, 2000⟩).2 = stateQr := by
  have h := claim4_expired_code_rejected stateQr ⟨3, some "q1", none, 2000⟩ userC "q1"
    (by decide) (by decide) rfl (by decide) (by decide)
  exact ⟨by decide, h.1, h.2⟩

end EBank

namespace EBank

theorem qrScanRoute_found_invalidAmount {s : BankState} {r : QrScanReq} {u : User}
    {qp : QrPayment}
    (hu : getUser s.users r.userId = some u) (hact : u.isActive = true)
    (hqr : jsStrFalsy r.qrCode = false)
    (hfind : getQrPaymentByCode s.qrPayments (r.qrCode.getD "") r.now = some qp)
    (hpa : resolvedAmount r.amount qp.amount ≤ 0) :
    qrScanRoute s r = (.err .invalidPaymentAmount, s) := by
  simp only [qrScanRoute, hu]
  rw [if_neg (by simp [hact] : ¬ u.isActive = false),
    if_neg (by simp [hqr] : ¬ jsStrFalsy r.qrCode = true)]
  simp only [hfind]
  rw [if_pos hpa]

theorem qrScanRoute_found_insufficientWallet {s : BankState} {r : QrScanReq} {u : User}
    {qp : QrPayment}
    (hu : getUser s.users r.userId = some u) (hact : u.isActive = true)
    (hqr : jsStrFalsy r.qrCode = false)
    (hfind : getQrPaymentByCode s.qrPayments (r.qrCode.getD "") r.now = some qp)
    (hpa : ¬ resolvedAmount r.amount qp.amount ≤ 0)
    (hw : u.walletBalance < resolvedAmount r.amount qp.amount) :
    qrScanRoute s r = (.err .insufficientWalletBalance, s) := by
  simp only [qrScanRoute, hu]
  rw [if_neg (by simp [hact] : ¬ u.isActive = false),
    if_neg (by simp [hqr] : ¬ jsStrFalsy r.qrCode = true)]
  simp only [hfind]
  rw [if_neg hpa, if_pos hw]

/-- C5 counterexample: redeeming a code whose `used` flag is true fails
with the same 404 invalid-or-expired error that redeeming a nonexistent
code produces — there is no distinct CodeAlreadyUsed error in the code —
though the state is indeed left unchanged. -/
theorem claim5_counterexample :
    codeUsed.isUsed = true
    ∧ (qrScanRoute stateQr ⟨3, some "q2", none, 500⟩).1 = .err .invalidOrExpiredQr
    ∧ (qrScanRoute stateQr ⟨3, some "q2", none, 500⟩).2 = stateQr
    ∧ (qrScanRoute stateNoQr ⟨3, some "q2", none, 500⟩).1 = .err .invalidOrExpiredQr
    ∧ (qrScanRoute stateNoQr ⟨3, some "q2", none, 500⟩).1
        = (qrScanRoute stateQr ⟨3, some "q2", none, 500⟩).1 := by
  decide

/-- C5 amended: any redemption attempt on a code whose `used` flag is true
fails with the combined 404 invalid-or-expired error (not a distinct
CodeAlreadyUsed error) and changes no balance and no payment-code state;
the lookup only ever returns codes with `used = false`, and a successful
redemption debits the redeeming wallet and is the one that flips `used`
from false to true. -/
theorem claim5_used_code_rejected (s : BankState) (r : QrScanReq) (u : User) (c : String)
    (hu : getUser s.users r.userId = some u) (hact : u.isActive = true)
    (hc : r.qrCode = some c) (hc0 : c ≠ "") :
    ((∀ qp ∈ s.qrPayments, qp.qrCode = c → qp.isUsed = true) →
        (qrScanRoute s r).1 = .err .invalidOrExpiredQr ∧ (qrScanRoute s r).2 = s)
    ∧ (∀ qp, getQrPaymentByCode s.qrPayments c r.now = some qp → qp.isUsed = false)
    ∧ ∀ (p : QrScanOk) (qp : QrPayment), (qrScanRoute s r).1 = .ok p →
        getQrPaymentByCode s.qrPayments c r.now = some qp →
        (qrScanRoute s r).2.qrPayments = markQrPaymentAsUsed s.qrPayments qp.id
        ∧ getUser (qrScanRoute s r).2.users r.userId
            = some { u with walletBalance := toFixed2 (u.walletBalance - p.amount) } := by
  have hqr : jsStrFalsy r.qrCode = false := by
    rw [hc]
    simp [jsStrFalsy, hc0]
  have hgetD : r.qrCode.getD "" = c := by rw [hc]; rfl
  refine ⟨?_, ?_, ?_⟩
  · intro hused
    have hfind : getQrPaymentByCode s.qrPayments (r.qrCode.getD "") r.now = none := by
      unfold getQrPaymentByCode
      rw [List.find?_eq_none]
      intro p hp
      simp only [hgetD, Bool.and_eq_true, beq_iff_eq, decide_eq_true_eq]
      rintro ⟨⟨hcode, hunused⟩, _⟩
      exact absurd (hused p hp hcode) (by simp [hunused])
    simp only [qrScanRoute, hu]
    rw [if_neg (by simp [hact] : ¬ u.isActive = false),
      if_neg (by simp [hqr] : ¬ jsStrFalsy r.qrCode = true)]
    simp only [hfind]
    exact ⟨by trivial, by trivial⟩
  · intro qp hqp
    have h2 := List.find?_some hqp
    simp only [Bool.and_eq_true, beq_iff_eq] at h2
    exact h2.1.2
  · intro p qp hok hfind0
    have hfind : getQrPaymentByCode s.qrPayments (r.qrCode.getD "") r.now = some qp := by
      rw [hgetD]; exact hfind0
    by_cases hpa : resolvedAmount r.amount qp.amount ≤ 0
    · rw [qrScanRoute_found_invalidAmount hu hact hqr hfind hpa] at hok
      simp at hok
    · by_cases hw : u.walletBalance < resolvedAmount r.amount qp.amount
      · rw [qrScanRoute_found_insufficientWallet hu hact hqr hfind hpa hw] at hok
        simp at hok
      · have hspec := qrScanRoute_spec hu hact hqr hfind hpa hw
        rw [hspec] at hok
        obtain rfl : p = ⟨resolvedAmount r.amount qp.amount, qp.merchantName,
            toFixed2 (u.walletBalance - resolvedAmount r.amount qp.amount)⟩ := by
          injection hok with h2
          exact h2.symm
        have hu2 : getUser s.users u.id = some u := by
          have hbeq := List.find?_some
            (show s.users.find? (fun x => x.id == r.userId) = some u from hu)
          have huid : u.id = r.userId := eq_of_beq hbeq
          rw [huid]
          exact hu
        constructor
        · rw [hspec]
        · rw [hspec]
          have hbeq := List.find?_some
            (show s.users.find? (fun x => x.id == r.userId) = some u from hu)
          have huid : u.id = r.userId := eq_of_beq hbeq
          show getUser (updateUserWalletBalance s.users u.id _) r.userId = _
          rw [← huid]
          exact getUser_updateUserWalletBalance_self hu2 _

/-- Witness for the amended C5 at the concrete already-used code. -/
theorem claim5_used_code_rejected_witness :
    (∀ qp ∈ stateQr.qrPayments, qp.qrCode = "q2" → qp.isUsed = true)
    ∧ (qrScanRoute stateQr ⟨3, some "q2", none, 500⟩).1 = .err .invalidOrExpiredQr
    ∧ (qrScanRoute stateQr ⟨3, some "q2", none, 500⟩).2 = stateQr := by
  have h := claim5_used_code_rejected stateQr ⟨3, some "q2", none, 500⟩ userC "q2"
    (by decide) (by decide) rfl (by decide)
  exact ⟨by decide, (h.1 (by decide)).1, (h.1 (by decide)).2⟩

end EBank

namespace EBank

/-- C6: the fraud pipeline is never invoked.  `FraudDetectionService` is
imported by the routes file but no route calls `analyzeTransaction` or
`createFraudAlert`, so no money-moving operation ever persists a
FraudAlert: the `fraud_alerts` table is left untouched by every operation,
even when the committed transaction triggers fraud patterns — here a
successful deposit of 20,000 (triggering `unusual_amount` and
`round_amount`) leaves `fraudAlerts` empty, contradicting the claim that a
pending FraudAlert is persisted. -/
theorem claim6_fraud_pipeline_never_runs :
    (∀ (s : BankState) (op : Op), (step s op).fraudAlerts = s.fraudAlerts)
    ∧ (depositRoute stateABC ⟨1, 20000, "1234", true⟩).1 = .ok ⟨25000, 20000⟩
    ∧ (analyzeTransaction (depositTxn userA 20000) userA 1 1 12).length = 2
    ∧ calculateRiskScore (analyzeTransaction (depositTxn userA 20000) userA 1 1 12) > 0
    ∧ (depositRoute stateABC ⟨1, 20000, "1234", true⟩).2.fraudAlerts = [] := by
  refine ⟨step_fraudAlerts, ?_, ?_, ?_, ?_⟩ <;> decide

end EBank

namespace EBank

/-- C7: with sufficient balance (and cent-valued inputs, under which the
`toFixed(2)` rounding is exact), `withdrawToWallet` succeeds, moving the
amount from `balance` to `walletBalance` and recording exactly one
transaction of type `withdrawal-to-wallet` (the spec's
`withdraw_to_wallet`) with the requested amount and status `completed`. -/
theorem claim7_withdraw_to_wallet (s : BankState) (r : WithdrawReq) (u : User)
    (hu : getUser s.users r.userId = some u) (hact : u.isActive = true)
    (hv : validTxnReq r.amount r.pin) (hp : r.pinOk = true)
    (hb : r.amount ≤ u.balance)
    (hcb : isCents u.balance) (hcw : isCents u.walletBalance) (hca : isCents r.amount) :
    (withdrawRoute s r).1 = .ok ⟨u.balance - r.amount, u.walletBalance + r.amount, r.amount⟩
    ∧ getUser (withdrawRoute s r).2.users r.userId
        = some { u with balance := u.balance - r.amount
                        walletBalance := u.walletBalance + r.amount }
    ∧ (withdrawRoute s r).2.txns = s.txns ++ [withdrawTxn u r.amount]
    ∧ (withdrawTxn u r.amount).transactionType = "withdrawal-to-wallet"
    ∧ (withdrawTxn u r.amount).amount = r.amount
    ∧ (withdrawTxn u r.amount).status = "completed" := by
  have hblt : ¬ u.balance < r.amount := not_lt.mpr hb
  have hv1 : toFixed2 (u.balance - r.amount) = u.balance - r.amount :=
    toFixed2_eq_self (isCents_sub hcb hca)
  have hv2 : toFixed2 (u.walletBalance + r.amount) = u.walletBalance + r.amount :=
    toFixed2_eq_self (isCents_add hcw hca)
  have hspec := withdrawRoute_spec hu hact hv hp hblt
  have hbeq := List.find?_some
    (show s.users.find? (fun x => x.id == r.userId) = some u from hu)
  have huid : u.id = r.userId := eq_of_beq hbeq
  have hu2 : getUser s.users u.id = some u := by rw [huid]; exact hu
  refine ⟨?_, ?_, ?_, rfl, rfl, rfl⟩
  · rw [hspec, hv1, hv2]
  · rw [hspec]
    show getUser (updateUserWalletBalance (updateUserBalance s.users u.id _) u.id _)
      r.userId = _
    rw [← huid]
    have h1 := getUser_updateUserBalance_self hu2 (toFixed2 (u.balance - r.amount))
    have h2 := getUser_updateUserWalletBalance_self h1 (toFixed2 (u.walletBalance + r.amount))
    rw [h2, hv1, hv2]
  · rw [hspec]

/-- Witness for C7: the §8 scenario — account A with balance 5000 and
wallet 0 withdraws 2000, ending with balance 3000 and wallet 2000. -/
theorem claim7_withdraw_to_wallet_witness :
    (withdrawRoute stateABC ⟨1, 2000, "1234", true⟩).1
      = .ok ⟨userA.balance - 2000, userA.walletBalance + 2000, 2000⟩
    ∧ getUser (withdrawRoute stateABC ⟨1, 2000, "1234", true⟩).2.users 1
        = some { userA with balance := userA.balance - 2000
                            walletBalance := userA.walletBalance + 2000 }
    ∧ (withdrawRoute stateABC ⟨1, 2000, "1234", true⟩).2.txns
        = stateABC.txns ++ [withdrawTxn userA 2000]
    ∧ userA.balance - 2000 = 3000
    ∧ userA.walletBalance + 2000 = (2000 : ℚ) := by
  have h := claim7_withdraw_to_wallet stateABC ⟨1, 2000, "1234", true⟩ userA
    (by decide) (by decide) (by decide) rfl (by decide) (by decide) (by decide) (by decide)
  exact ⟨h.1, h.2.1, h.2.2.1, by decide, by decide⟩

end EBank

namespace EBank

theorem foldl_add_riskScore (ps : List FraudPattern) (a : ℚ) :
    ps.foldl (fun sum p => sum + p.riskScore) a
      = a + (ps.map FraudPattern.riskScore).sum := by
  induction ps generalizing a with
  | nil => simp
  | cons p t ih =>
    simp only [List.foldl_cons, List.map_cons, List.sum_cons, ih]
    ring

/-- C8: the combined risk score is `min(100, average(triggered weights) +
min(30, 10 x count))` for a non-empty set of triggered patterns, `0` for
an empty one (and with no caller of the pipeline, no alert is created at
all — see C6); the §8 example with triggered weights 75 and 80 scores
97.5. -/
theorem claim8_risk_score_formula (ps : List FraudPattern) (h : ps ≠ []) :
    calculateRiskScore ps
        = min 100 ((ps.map FraudPattern.riskScore).sum / ps.length
            + min (30 : ℚ) (10 * ps.length))
    ∧ calculateRiskScore [] = 0
    ∧ calculateRiskScore bigTransferPatterns = 195 / 2 := by
  refine ⟨?_, rfl, by decide⟩
  unfold calculateRiskScore
  rw [if_neg (fun hh => h (List.length_eq_zero.mp hh))]
  rw [foldl_add_riskScore, zero_add]
  rw [min_comm ((ps.length : ℚ) * 10) 30, mul_comm ((ps.length : ℚ)) 10,
    min_comm _ (100 : ℚ)]

/-- Witness for C8: the fixture patterns (weights 75 and 80) satisfy the
formula and score 97.5. -/
theorem claim8_risk_score_formula_witness :
    bigTransferPatterns ≠ []
    ∧ calculateRiskScore bigTransferPatterns
        = min 100 ((bigTransferPatterns.map FraudPattern.riskScore).sum
            / bigTransferPatterns.length + min (30 : ℚ) (10 * bigTransferPatterns.length))
    ∧ bigTransferPatterns.map FraudPattern.riskScore = [75, 80]
    ∧ calculateRiskScore bigTransferPatterns = 195 / 2 := by
  have h := claim8_risk_score_formula bigTransferPatterns (by decide)
  exact ⟨by decide, h.1, by decide, h.2.2⟩

end EBank

namespace EBank

/-- C9 counterexample: the claim says the resolved amount must be a
positive integer (else InvalidAmount) and that an explicit override takes
precedence.  The code checks only `paymentAmount <= 0`: a non-integer
override of 10.5 is accepted and debited, and an explicit override of `0`
is falsy in `amount || ...`, so it falls back to the code's fixed amount
instead of taking precedence. -/
theorem claim9_counterexample :
    (21 / 2 : ℚ).den = 2
    ∧ (qrScanRoute stateQr ⟨3, some "q1", some (21 / 2), 500⟩).1
        = .ok ⟨21 / 2, some "M", 1000 - 21 / 2⟩
    ∧ (getUser (qrScanRoute stateQr ⟨3, some "q1", some (21 / 2), 500⟩).2.users 3).map
        User.walletBalance = some (1000 - 21 / 2)
    ∧ resolvedAmount (some 0) (some 500) = 500
    ∧ (qrScanRoute stateQr ⟨3, some "q1", some 0, 500⟩).1 = .ok ⟨500, some "M", 500⟩ := by
  decide

/-- C9 amended: a nonzero explicit override takes precedence over the
code's fixed amount; an override of 0, like an absent one, falls back to
the code's amount (0 when the code has none).  Redemption fails with the
invalid-amount error precisely when the resolved amount is `<= 0`, with no
wallet debit and no state change; positive non-integer amounts are
accepted. -/
theorem claim9_amount_resolution (s : BankState) (r : QrScanReq) (u : User) (qp : QrPayment)
    (hu : getUser s.users r.userId = some u) (hact : u.isActive = true)
    (hqr : jsStrFalsy r.qrCode = false)
    (hfind : getQrPaymentByCode s.qrPayments (r.qrCode.getD "") r.now = some qp) :
    (∀ a : ℚ, r.amount = some a → a ≠ 0 → resolvedAmount r.amount qp.amount = a)
    ∧ (r.amount = some 0 → resolvedAmount r.amount qp.amount = qp.amount.getD 0)
    ∧ (r.amount = none → resolvedAmount r.amount qp.amount = qp.amount.getD 0)
    ∧ (resolvedAmount r.amount qp.amount ≤ 0 →
        (qrScanRoute s r).1 = .err .invalidPaymentAmount ∧ (qrScanRoute s r).2 = s)
    ∧ (¬ resolvedAmount r.amount qp.amount ≤ 0 →
        (qrScanRoute s r).1 ≠ .err .invalidPaymentAmount) := by
  refine ⟨?_, ?_, ?_, ?_, ?_⟩
  · intro a ha hne
    rw [ha]
    simp [resolvedAmount, jsOrQ, hne]
  · intro ha
    rw [ha]
    simp [resolvedAmount, jsOrQ]
  · intro ha
    rw [ha]
    simp [resolvedAmount, jsOrQ]
  · intro hpa
    have h := qrScanRoute_found_invalidAmount hu hact hqr hfind hpa
    exact ⟨by rw [h], by rw [h]⟩
  · intro hpa
    by_cases hw : u.walletBalance < resolvedAmount r.amount qp.amount
    · rw [qrScanRoute_found_insufficientWallet hu hact hqr hfind hpa hw]
      simp
    · rw [qrScanRoute_spec hu hact hqr hfind hpa hw]
      simp

/-- Witness for the amended C9: a negative override is rejected with the
invalid-amount error and no state change. -/
theorem claim9_amount_resolution_witness :
    resolvedAmount (some (-5 : ℚ)) codeFresh.amount = -5
    ∧ (qrScanRoute stateQr ⟨3, some "q1", some (-5), 500⟩).1 = .err .invalidPaymentAmount
    ∧ (qrScanRoute stateQr ⟨3, some "q1", some (-5), 500⟩).2 = stateQr := by
  have h := claim9_amount_resolution stateQr ⟨3, some "q1", some (-5), 500⟩ userC codeFresh
    (by decide) (by decide) (by decide) (by decide)
  exact ⟨h.1 (-5) rfl (by decide), (h.2.2.2.1 (by decide)).1, (h.2.2.2.1 (by decide)).2⟩

end EBank

namespace EBank

/-- C10: a successful QR redemption changes only the redeeming account's
`walletBalance` (debited by the resolved amount): the redeemer's `balance`
is untouched, every other account — in particular the code's issuing
account — is altogether unchanged, so (for cent-valued states) the total
money across all accounts shrinks by the paid amount; and the recorded
`wallet-payment` transaction carries the merchant label string, not the
issuing account, as its destination (`toUserId` stays empty). -/
theorem claim10_qr_redemption_frame (s : BankState) (r : QrScanReq) (u : User)
    (qp : QrPayment) (p : QrScanOk)
    (hu : getUser s.users r.userId = some u) (hact : u.isActive = true)
    (hqr : jsStrFalsy r.qrCode = false)
    (hfind : getQrPaymentByCode s.qrPayments (r.qrCode.getD "") r.now = some qp)
    (hok : (qrScanRoute s r).1 = .ok p) :
    getUser (qrScanRoute s r).2.users r.userId
        = some { u with walletBalance := toFixed2 (u.walletBalance - p.amount) }
    ∧ (∀ j, j ≠ u.id → getUser (qrScanRoute s r).2.users j = getUser s.users j)
    ∧ (qrScanRoute s r).2.txns = s.txns ++ [walletPaymentTxn u qp p.amount]
    ∧ (walletPaymentTxn u qp p.amount).toAccountNumber
        = some (jsOrStr qp.merchantName "QR Merchant")
    ∧ (walletPaymentTxn u qp p.amount).toUserId = none
    ∧ (idsNodup s → centsState s → isCents p.amount →
        totalMoney (qrScanRoute s r).2 = totalMoney s - p.amount) := by
  by_cases hpa : resolvedAmount r.amount qp.amount ≤ 0
  · rw [qrScanRoute_found_invalidAmount hu hact hqr hfind hpa] at hok
    simp at hok
  by_cases hw : u.walletBalance < resolvedAmount r.amount qp.amount
  · rw [qrScanRoute_found_insufficientWallet hu hact hqr hfind hpa hw] at hok
    simp at hok
  have hspec := qrScanRoute_spec hu hact hqr hfind hpa hw
  rw [hspec] at hok
  obtain rfl : p = ⟨resolvedAmount r.amount qp.amount, qp.merchantName,
      toFixed2 (u.walletBalance - resolvedAmount r.amount qp.amount)⟩ := by
    injection hok with h2
    exact h2.symm
  have hbeq := List.find?_some
    (show s.users.find? (fun x => x.id == r.userId) = some u from hu)
  have huid : u.id = r.userId := eq_of_beq hbeq
  have hu2 : getUser s.users u.id = some u := by rw [huid]; exact hu
  refine ⟨?_, ?_, ?_, rfl, rfl, ?_⟩
  · rw [hspec]
    show getUser (updateUserWalletBalance s.users u.id _) r.userId = _
    rw [← huid]
    exact getUser_updateUserWalletBalance_self hu2 _
  · intro j hj
    rw [hspec]
    show getUser (updateUserWalletBalance s.users u.id _) j = _
    exact getUser_updateUserWalletBalance_ne hj _
  · rw [hspec]
  · intro hnd hc hca
    rw [hspec]
    show ((updateUserWalletBalance s.users u.id
        (toFixed2 (u.walletBalance - resolvedAmount r.amount qp.amount))).map userMoney).sum
      = _
    have hufind : s.users.find? (fun x => x.id == u.id) = some u := by
      rw [huid]
      exact hu
    rw [sum_updateUserWalletBalance _ hnd hufind]
    have hmem : u ∈ s.users := List.mem_of_find?_eq_some hu2
    have hcw := (hc u hmem).2
    rw [toFixed2_eq_self (isCents_sub hcw hca)]
    show _ = (s.users.map userMoney).sum - _
    ring

/-- Witness for C10: account C pays the 500-unit code issued by account B;
only wallet money of C moves, the issuing account B is unchanged, and the
total shrinks by 500. -/
theorem claim10_qr_redemption_frame_witness :
    (qrScanRoute stateQr ⟨3, some "q1", none, 500⟩).1 = .ok ⟨500, some "M", 500⟩
    ∧ getUser (qrScanRoute stateQr ⟨3, some "q1", none, 500⟩).2.users 3
        = some { userC with walletBalance := toFixed2 (userC.walletBalance - 500) }
    ∧ getUser (qrScanRoute stateQr ⟨3, some "q1", none, 500⟩).2.users codeFresh.userId
        = getUser stateQr.users codeFresh.userId
    ∧ (walletPaymentTxn userC codeFresh 500).toAccountNumber = some "M"
    ∧ (walletPaymentTxn userC codeFresh 500).toUserId = none
    ∧ totalMoney (qrScanRoute stateQr ⟨3, some "q1", none, 500⟩).2
        = totalMoney stateQr - 500 := by
  have hok : (qrScanRoute stateQr ⟨3, some "q1", none, 500⟩).1
      = .ok ⟨500, some "M", 500⟩ := by decide
  have h := claim10_qr_redemption_frame stateQr ⟨3, some "q1", none, 500⟩ userC codeFresh
    ⟨500, some "M", 500⟩ (by decide) (by decide) (by decide) (by decide) hok
  exact ⟨hok, h.1, h.2.1 codeFresh.userId (by decide), by decide, by decide,
    h.2.2.2.2.2 (by decide) (by decide) (by decide)⟩

end EBank
